import Mathlib

/-!
Verification of the dose-calculator formulas of this repository.

The calculators are React components; their numeric cores are pure
functions over IEEE doubles.  We embed those cores shallowly:

* rational-valued arithmetic (parsing, unit conversion, rounding, dose
  capping) is modelled over `ℚ`, with JavaScript `Math.round` made
  explicit (`jsRound`, round-half-up) and `parseFloat`-style fallible
  parsing modelled as `Option ℚ`;
* the transcendental nomogram interpolation (`Math.log10` / `Math.pow`)
  is modelled over `ℝ`;
* JavaScript division, which yields `Infinity` on division of a positive
  number by zero, is modelled by the `JSNum` type.
-/

namespace MedCalc

/-- JavaScript `Math.round`: rounds half-way cases toward positive infinity. -/
def jsRound (q : ℚ) : ℤ := ⌊q + 1 / 2⌋

/-- `Math.round(v * 100) / 100` — the two-decimal display rounding used across the calculators. -/
def round2 (q : ℚ) : ℚ := (jsRound (q * 100) : ℚ) / 100

/-- `Math.round(v * 1000) / 1000` — three-decimal rounding (`roundNumber(v, 3)`). -/
def round3 (q : ℚ) : ℚ := (jsRound (q * 1000) : ℚ) / 1000

/-- JavaScript `parseFloat` result: `none` models `NaN` (parse failure / missing input). -/
def parseNumber (v : Option ℚ) : ℚ := v.getD 0

namespace Aceta

/-! ### AcetaminophenLethalDoseCalculator.jsx -/

/-- Nomogram reference time `NOMO_T1 = 4` (hours). -/
def NOMO_T1 : ℝ := 4

/-- Nomogram reference concentration `NOMO_C1 = 150` (µg/mL at 4 h). -/
def NOMO_C1 : ℝ := 150

/-- Nomogram reference time `NOMO_T2 = 24` (hours). -/
def NOMO_T2 : ℝ := 24

/-- Nomogram reference concentration `NOMO_C2 = 4.69` (µg/mL at 24 h). -/
def NOMO_C2 : ℝ := 4.69

/-- `nomogramThresholdAtHours(h)`: treatment-line threshold at `h` hours.
`h <= 4` returns the 4-hour point, `h >= 24` the 24-hour point, and in
between the value is the log10-linear interpolation of the two reference
points (source lines 75–85). -/
noncomputable def nomogramThresholdAtHours (h : ℝ) : ℝ :=
  if h ≤ NOMO_T1 then NOMO_C1
  else if NOMO_T2 ≤ h then NOMO_C2
  else
    let logC1 := Real.logb 10 NOMO_C1
    let logC2 := Real.logb 10 NOMO_C2
    let ratio := (h - NOMO_T1) / (NOMO_T2 - NOMO_T1)
    (10 : ℝ) ^ (logC1 + (logC2 - logC1) * ratio)

end Aceta

/-- C1: for every elapsed-hours input `h`, the nomogram threshold is the
4-hour reference value 150 µg/mL when `h ≤ 4`, the 24-hour reference value
4.69 µg/mL when `h ≥ 24`, and otherwise the log-linear interpolation
`10 ^ (log10 150 + (log10 4.69 - log10 150) * (h - 4) / (24 - 4))`. -/
theorem nomogram_piecewise_spec (h : ℝ) :
    (h ≤ 4 → Aceta.nomogramThresholdAtHours h = 150) ∧
    (24 ≤ h → Aceta.nomogramThresholdAtHours h = 4.69) ∧
    (4 < h → h < 24 →
      Aceta.nomogramThresholdAtHours h =
        (10 : ℝ) ^ (Real.logb 10 150 +
          (Real.logb 10 4.69 - Real.logb 10 150) * (h - 4) / (24 - 4))) := by
  unfold Aceta.nomogramThresholdAtHours Aceta.NOMO_T1 Aceta.NOMO_C1 Aceta.NOMO_T2 Aceta.NOMO_C2
  refine ⟨fun h4 => by rw [if_pos h4], fun h24 => ?_, fun hlo hhi => ?_⟩
  · rw [if_neg (by linarith), if_pos h24]
  · rw [if_neg (by linarith), if_neg (by linarith)]
    ring_nf

/-- Concrete instances of `nomogram_piecewise_spec` at h = 2, 30 and 14. -/
theorem nomogram_piecewise_spec_witness :
    Aceta.nomogramThresholdAtHours 2 = 150 ∧
    Aceta.nomogramThresholdAtHours 30 = 4.69 ∧
    Aceta.nomogramThresholdAtHours 14 =
      (10 : ℝ) ^ (Real.logb 10 150 +
        (Real.logb 10 4.69 - Real.logb 10 150) * (14 - 4) / (24 - 4)) :=
  ⟨(nomogram_piecewise_spec 2).1 (by norm_num),
   (nomogram_piecewise_spec 30).2.1 (by norm_num),
   (nomogram_piecewise_spec 14).2.2 (by norm_num) (by norm_num)⟩

/-- C2: the nomogram threshold satisfies the exact point evaluations
`threshold(4) = 150`, `threshold(24) = 4.69`, `threshold(2) = threshold(4)`,
`threshold(30) = threshold(24)`, and `threshold(14)` is the geometric-mean
interpolation value `10 ^ ((log10 150 + log10 4.69) / 2)`. -/
theorem nomogram_point_values :
    Aceta.nomogramThresholdAtHours 4 = 150 ∧
    Aceta.nomogramThresholdAtHours 24 = 4.69 ∧
    Aceta.nomogramThresholdAtHours 2 = Aceta.nomogramThresholdAtHours 4 ∧
    Aceta.nomogramThresholdAtHours 30 = Aceta.nomogramThresholdAtHours 24 ∧
    Aceta.nomogramThresholdAtHours 14 =
      (10 : ℝ) ^ ((Real.logb 10 150 + Real.logb 10 4.69) / 2) := by
  unfold Aceta.nomogramThresholdAtHours Aceta.NOMO_T1 Aceta.NOMO_C1 Aceta.NOMO_T2 Aceta.NOMO_C2
  norm_num
  congr 1
  ring

/-- Number of field errors carried by a failed computation. -/
def errorCount {α : Type} : Except (List String) α → ℕ
  | Except.error l => l.length
  | Except.ok _ => 0

namespace Aceta

/-- `ACETAMINOPHEN_MW = 151.1626` g/mol. -/
def ACETAMINOPHEN_MW : ℚ := 1511626 / 10000

/-- `umolL_to_ugmL`: `(parseFloat(umolL) || 0) * (ACETAMINOPHEN_MW * 0.001)`.
A failed parse (`none`) is coerced to `0` by the `|| 0` fallback. -/
def umolL_to_ugmL (umolL : Option ℚ) : ℚ :=
  parseNumber umolL * (ACETAMINOPHEN_MW * (1 / 1000))

/-- `ugmL_to_umolL`: `(parseFloat(ugmL) || 0) / (ACETAMINOPHEN_MW * 0.001)`. -/
def ugmL_to_umolL (ugmL : Option ℚ) : ℚ :=
  parseNumber ugmL / (ACETAMINOPHEN_MW * (1 / 1000))

/-- The `concentration_ugmL` memo: the raw value when the unit is µg/mL,
otherwise the µmol/L → µg/mL conversion (both with the `|| 0` fallback). -/
def concentration_ugmL (value : Option ℚ) (unit : String) : ℚ :=
  if unit = "ug_per_mL" then parseNumber value else umolL_to_ugmL value

/-- `diffHours`: `(t1 - t0) / (1000 * 60 * 60)` for timestamps in milliseconds. -/
def diffHours (t0 t1 : ℚ) : ℚ := (t1 - t0) / (1000 * 60 * 60)

/-- The `computedHoursSince` memo: a parseable hours field wins; otherwise
both timestamps are required, else `null`. -/
def computedHoursSince (hoursSince tIngest tSample : Option ℚ) : Option ℚ :=
  match hoursSince with
  | some n => some n
  | none =>
    match tIngest, tSample with
    | some t0, some t1 => some (diffHours t0 t1)
    | _, _ => none

/-- Toast shown when no elapsed-time input is available. -/
def hoursErrorMsg : String :=
  "Please provide either both ingestion & sample times, or enter hours since ingestion."

/-- Toast shown when the concentration is falsy. -/
def concErrorMsg : String := "Enter a valid concentration."

/-- Warning for a sample drawn before 4 hours. -/
def warnPre4 : String :=
  "Sample drawn before 4 hours — nomogram is not valid; repeat level at 4 hours post-ingestion if possible."

/-- Warning for a sample drawn after 24 hours. -/
def warnPost24 : String :=
  "Sample drawn after 24 hours — nomogram was designed for 4–24 hours. Use clinical judgment and local guidance."

/-- The successful payload of `calculate` (the fields of the `res` object
that carry computation results). -/
structure AcetaResult where
  hoursSince : ℚ
  concentration_ugmL : ℚ
  concentration_umolL : ℚ
  threshold_ugmL : ℝ
  treat : Bool
  warnings : List String

/-- `roundNumber(v, 3)` applied to the real-valued threshold. -/
noncomputable def round3R (x : ℝ) : ℝ := (⌊x * 1000 + 1 / 2⌋ : ℝ) / 1000

/-- The `calculate` handler (source lines 116–157): guard on missing hours,
then on a falsy concentration — each failure aborts with a single toast,
modelled as a one-element error list — then build the result from the
nomogram threshold at `max h 4`. -/
noncomputable def calculate (computedHours : Option ℚ) (conc : ℚ) :
    Except (List String) AcetaResult :=
  match computedHours with
  | none => Except.error [hoursErrorMsg]
  | some h =>
    if conc = 0 then Except.error [concErrorMsg]
    else
      let warnings := (if h < 4 then [warnPre4] else []) ++ (if h > 24 then [warnPost24] else [])
      let threshold := nomogramThresholdAtHours (max (h : ℝ) 4)
      Except.ok
        { hoursSince := round2 h
          concentration_ugmL := round3 conc
          concentration_umolL := round2 (ugmL_to_umolL (some conc))
          threshold_ugmL := round3R threshold
          treat := decide ((conc : ℝ) ≥ threshold)
          warnings := warnings }

/-- A placeholder successful result, used to state that `calculate` cannot
succeed on invalid input. -/
noncomputable def emptyResult : AcetaResult :=
  { hoursSince := 0, concentration_ugmL := 0, concentration_umolL := 0
    threshold_ugmL := 0, treat := false, warnings := [] }

end Aceta

/-- C4 counterexample: with both required fields missing (no time inputs at
all and an unparseable concentration) the computation fails with a single
field error — the hours message — not an aggregate of two. -/
theorem validation_two_missing_fields_one_error_cex :
    Aceta.calculate (Aceta.computedHoursSince none none none)
        (Aceta.concentration_ugmL none "ug_per_mL") = Except.error [Aceta.hoursErrorMsg] ∧
    errorCount (Aceta.calculate (Aceta.computedHoursSince none none none)
        (Aceta.concentration_ugmL none "ug_per_mL")) = 1 ∧ (1 : ℕ) ≠ 2 := by
  refine ⟨rfl, rfl, by norm_num⟩

/-- C4 (amended): a compute call with a missing/invalid required field fails
before any computation proceeds, but the failure carries exactly one field
error — the first problem encountered in order (hours, then concentration) —
rather than an aggregate of all problems. -/
theorem validation_reports_first_error_only (hOpt : Option ℚ) (conc : ℚ)
    (hbad : hOpt = none ∨ conc = 0) :
    errorCount (Aceta.calculate hOpt conc) = 1 ∧
    (∀ r, Aceta.calculate hOpt conc ≠ Except.ok r) := by
  rcases hbad with h | h
  · subst h
    exact ⟨rfl, fun r => by simp [Aceta.calculate]⟩
  · subst h
    cases hOpt with
    | none => exact ⟨rfl, fun r => by simp [Aceta.calculate]⟩
    | some x =>
      constructor
      · simp [Aceta.calculate, errorCount]
      · intro r
        simp [Aceta.calculate]

/-- Instance of `validation_reports_first_error_only` with both fields bad. -/
theorem validation_reports_first_error_only_witness :
    errorCount (Aceta.calculate none 0) = 1 ∧
    Aceta.calculate none 0 ≠ Except.ok Aceta.emptyResult :=
  ⟨(validation_reports_first_error_only none 0 (Or.inl rfl)).1,
   (validation_reports_first_error_only none 0 (Or.inl rfl)).2 Aceta.emptyResult⟩

/-- C7 counterexample: on a failed parse the µmol/L → µg/mL conversion
returns the plain number `0` — the same value it returns for a literal
zero input — rather than an error or a distinguished "not provided" value. -/
theorem conversion_silent_zero_cex :
    Aceta.umolL_to_ugmL none = 0 ∧ Aceta.umolL_to_ugmL (some 0) = 0 ∧
    Aceta.concentration_ugmL none "ug_per_mL" = 0 := by
  refine ⟨?_, ?_, ?_⟩ <;>
    norm_num [Aceta.umolL_to_ugmL, Aceta.concentration_ugmL, parseNumber]

/-- C7 (amended): the unit-conversion helpers silently default a failed
numeric parse to `0`, indistinguishable from a literal zero input; only the
downstream `calculate` guard then rejects the zero concentration, so no
computation proceeds on unparseable input. -/
theorem conversion_zero_default (v : Option ℚ) (hv : v = none) :
    Aceta.umolL_to_ugmL v = 0 ∧
    Aceta.umolL_to_ugmL v = Aceta.umolL_to_ugmL (some 0) ∧
    Aceta.concentration_ugmL v "umol_per_L" = 0 ∧
    (∀ hOpt r, Aceta.calculate hOpt (Aceta.concentration_ugmL v "umol_per_L") ≠
      Except.ok r) := by
  subst hv
  have hc : Aceta.concentration_ugmL none "umol_per_L" = 0 := by
    norm_num [Aceta.concentration_ugmL, Aceta.umolL_to_ugmL, parseNumber]
  refine ⟨?_, ?_, hc, ?_⟩
  · norm_num [Aceta.umolL_to_ugmL, parseNumber]
  · norm_num [Aceta.umolL_to_ugmL, parseNumber]
  · intro hOpt r
    rw [hc]
    cases hOpt with
    | none => simp [Aceta.calculate]
    | some x => simp [Aceta.calculate]

/-- Instance of `conversion_zero_default` at the failed parse `none`. -/
theorem conversion_zero_default_witness :
    Aceta.umolL_to_ugmL none = 0 ∧
    Aceta.calculate (some 8) (Aceta.concentration_ugmL none "umol_per_L") ≠
      Except.ok Aceta.emptyResult :=
  ⟨(conversion_zero_default none rfl).1,
   (conversion_zero_default none rfl).2.2.2 (some 8) Aceta.emptyResult⟩

/-- JavaScript `parseInt` on a number: truncation toward zero. -/
def jsTrunc (q : ℚ) : ℤ := if 0 ≤ q then ⌊q⌋ else ⌈q⌉

namespace Tylenol

/-! ### PediatricTylenolCalculator.jsx -/

/-- `toKg(val, unit)`: `null` on a failed parse or non-positive weight,
otherwise kg/g/lb normalisation (source lines 49–56). -/
def toKg (val : Option ℚ) (unit : String) : Option ℚ :=
  match val with
  | none => none
  | some n =>
    if n ≤ 0 then none
    else if unit = "kg" then some n
    else if unit = "g" then some (n / 1000)
    else if unit = "lb" then some (n * (45359237 / 100000000))
    else none

/-- `roundTo(val, step)` (source lines 58–62): a missing/non-numeric or
non-positive step falls back to 2-decimal rounding, otherwise the value is
rounded to the nearest multiple of `step`. -/
def roundTo (val : ℚ) (step : Option ℚ) : ℚ :=
  match step with
  | none => round2 val
  | some s => if s ≤ 0 then round2 val else (jsRound (val / s) : ℚ) * s

/-- Age normalised to months: years ×12, months as-is, anything else ÷30. -/
def ageMonths (age : ℚ) (ageUnit : String) : ℚ :=
  if ageUnit = "years" then age * 12
  else if ageUnit = "months" then age
  else age / 30

/-- The form state feeding `calculate`. -/
structure Inputs where
  age : ℚ
  ageUnit : String
  weight : Option ℚ
  weightUnit : String
  mgPerKg : ℚ
  maxDosesPerDay : Option ℚ
  maxSingleMg : ℚ
  maxDailyMg : ℚ
  formulationMgPer5ml : Option ℚ
  roundingStep : Option ℚ

/-- `parseInt(maxDosesPerDay || 4)`. -/
def effectiveDoses (inp : Inputs) : ℤ :=
  if parseNumber inp.maxDosesPerDay = 0 then 4 else jsTrunc (parseNumber inp.maxDosesPerDay)

/-- Toast shown when `toKg` returns `null`. -/
def weightErrorMsg : String := "Please enter a valid weight."

/-- Neonate warning. -/
def neonateMsg : String :=
  "Neonate: dosing differs and organ immaturity affects metabolism — use neonatal-specific guidance."

/-- Single-dose cap warning, interpolating the rounded raw dose and the cap. -/
def capSingleMsg (rawMg maxSingleMg : ℚ) : String :=
  "Calculated single dose (" ++ toString (jsRound rawMg) ++
    " mg) exceeds configured max single dose (" ++ toString maxSingleMg ++
    " mg) and was capped."

/-- Daily-total cap warning. -/
def capDailyMsg (dailyMg maxDailyMg : ℚ) : String :=
  "Estimated total daily dose (" ++ toString (jsRound dailyMg) ++
    " mg) exceeds configured max daily dose (" ++ toString maxDailyMg ++
    " mg). Review dosing."

/-- The result object built by `calculate`. -/
structure Result where
  weightKg : ℚ
  mgPerKg : ℚ
  rawMg : ℚ
  appliedSingleMg : ℚ
  mlPerDose : Option ℚ
  dailyMg : ℚ
  warnings : List String

/-- `calculate` (source lines 64–116): reject an invalid weight, compute the
raw weight-based dose, clamp it at `maxSingleMg`, convert to formulation
volume, and attach neonate / single-cap / daily-cap warnings. -/
def calculate (inp : Inputs) : Except (List String) Result :=
  match toKg inp.weight inp.weightUnit with
  | none => Except.error [weightErrorMsg]
  | some wKg =>
    let aM := ageMonths inp.age inp.ageUnit
    let rawMg := wKg * inp.mgPerKg
    let appliedSingleMg := min rawMg inp.maxSingleMg
    let dailyMg := appliedSingleMg * (effectiveDoses inp : ℚ)
    let mlPerDose :=
      match inp.formulationMgPer5ml with
      | some f => some (roundTo (appliedSingleMg / f * 5) inp.roundingStep)
      | none => none
    let warnings :=
      (if aM < 1 then [neonateMsg] else []) ++
      (if appliedSingleMg ≥ inp.maxSingleMg then [capSingleMsg rawMg inp.maxSingleMg] else []) ++
      (if dailyMg > inp.maxDailyMg then [capDailyMsg dailyMg inp.maxDailyMg] else [])
    Except.ok
      { weightKg := round2 wKg
        mgPerKg := inp.mgPerKg
        rawMg := round2 rawMg
        appliedSingleMg := round2 appliedSingleMg
        mlPerDose := mlPerDose
        dailyMg := round2 dailyMg
        warnings := warnings }

end Tylenol

/-- Scenario inputs: weight 80 kg, mgPerKg 15, cap 1000 mg (defaults otherwise). -/
def tylenolInp80 : Tylenol.Inputs :=
  { age := 2, ageUnit := "years", weight := some 80, weightUnit := "kg", mgPerKg := 15
    maxDosesPerDay := some 4, maxSingleMg := 1000, maxDailyMg := 4000
    formulationMgPer5ml := some 125, roundingStep := some (1 / 2) }

/-- Expected result for `tylenolInp80`: raw 1200 mg capped to 1000 mg with one warning. -/
def tylenolRes80 : Tylenol.Result :=
  { weightKg := 80, mgPerKg := 15, rawMg := 1200, appliedSingleMg := 1000
    mlPerDose := some 40, dailyMg := 4000, warnings := [Tylenol.capSingleMsg 1200 1000] }

/-- Scenario inputs: weight 12 kg, mgPerKg 15, cap 1000 mg (defaults otherwise). -/
def tylenolInp12 : Tylenol.Inputs :=
  { age := 2, ageUnit := "years", weight := some 12, weightUnit := "kg", mgPerKg := 15
    maxDosesPerDay := some 4, maxSingleMg := 1000, maxDailyMg := 4000
    formulationMgPer5ml := some 125, roundingStep := some (1 / 2) }

/-- Expected result for `tylenolInp12`: raw 180 mg uncapped, no warnings. -/
def tylenolRes12 : Tylenol.Result :=
  { weightKg := 12, mgPerKg := 15, rawMg := 180, appliedSingleMg := 180
    mlPerDose := some 7, dailyMg := 720, warnings := [] }

/-- Inputs for a 0.5-month-old neonate weighing 2 kg (raw dose 30 mg, far below the cap). -/
def tylenolInpNeonate : Tylenol.Inputs :=
  { age := 1 / 2, ageUnit := "months", weight := some 2, weightUnit := "kg", mgPerKg := 15
    maxDosesPerDay := some 4, maxSingleMg := 1000, maxDailyMg := 4000
    formulationMgPer5ml := some 125, roundingStep := some (1 / 2) }

/-- C3 counterexample: a 2 kg neonate gets raw dose 30 mg, strictly below the
1000 mg cap, yet the result warnings list is non-empty (the neonate warning),
so "raw dose below the cap implies the warnings list is empty" fails. -/
theorem tylenol_below_cap_nonempty_warnings_cex :
    Tylenol.calculate tylenolInpNeonate = Except.ok
      { weightKg := 2, mgPerKg := 15, rawMg := 30, appliedSingleMg := 30
        mlPerDose := some 1, dailyMg := 120, warnings := [Tylenol.neonateMsg] } ∧
    (30 : ℚ) < 1000 ∧ [Tylenol.neonateMsg] ≠ ([] : List String) := by
  refine ⟨?_, by norm_num, by simp⟩
  have hmy : ("months" = "years") = False := by simp
  norm_num [Tylenol.calculate, tylenolInpNeonate, Tylenol.toKg, Tylenol.ageMonths,
    Tylenol.effectiveDoses, Tylenol.roundTo, round2, jsRound, jsTrunc, parseNumber, hmy]

/-- C3 (amended): with a valid weight, a raw dose strictly above the cap is
reported as the cap with a non-empty warnings list; a raw dose strictly below
the cap is reported unchanged, and the warnings list is empty provided the
age is at least one month and the estimated daily total does not exceed the
daily cap (the code also emits neonate and daily-total warnings, so "below
the cap" alone does not make the list empty). -/
theorem tylenol_cap_spec (inp : Tylenol.Inputs) (wKg : ℚ) (r : Tylenol.Result)
    (hw : Tylenol.toKg inp.weight inp.weightUnit = some wKg)
    (hr : Tylenol.calculate inp = Except.ok r) :
    (inp.maxSingleMg < wKg * inp.mgPerKg →
      r.appliedSingleMg = round2 inp.maxSingleMg ∧ r.warnings ≠ []) ∧
    (wKg * inp.mgPerKg < inp.maxSingleMg →
      r.appliedSingleMg = round2 (wKg * inp.mgPerKg) ∧
      (1 ≤ Tylenol.ageMonths inp.age inp.ageUnit →
        wKg * inp.mgPerKg * (Tylenol.effectiveDoses inp : ℚ) ≤ inp.maxDailyMg →
        r.warnings = [])) := by
  rw [Tylenol.calculate, hw] at hr
  simp only [Except.ok.injEq] at hr
  subst hr
  constructor
  · intro hgt
    have hmin : min (wKg * inp.mgPerKg) inp.maxSingleMg = inp.maxSingleMg :=
      min_eq_right (le_of_lt hgt)
    refine ⟨by simp [hmin], ?_⟩
    have hge : inp.maxSingleMg ≤ min (wKg * inp.mgPerKg) inp.maxSingleMg := le_of_eq hmin.symm
    simp only [ge_iff_le, if_pos hge]
    split_ifs <;> simp
  · intro hlt
    have hmin : min (wKg * inp.mgPerKg) inp.maxSingleMg = wKg * inp.mgPerKg :=
      min_eq_left (le_of_lt hlt)
    refine ⟨by simp [hmin], fun hage hdaily => ?_⟩
    have h1 : ¬ Tylenol.ageMonths inp.age inp.ageUnit < 1 := not_lt.mpr hage
    have h2 : ¬ inp.maxSingleMg ≤ min (wKg * inp.mgPerKg) inp.maxSingleMg := by
      rw [hmin]; exact not_le.mpr hlt
    have h3 : ¬ min (wKg * inp.mgPerKg) inp.maxSingleMg * (Tylenol.effectiveDoses inp : ℚ) >
        inp.maxDailyMg := by
      rw [hmin]; exact not_lt.mpr hdaily
    simp only [ge_iff_le, h1, h2, h3, if_neg, if_false]
    simp

/-- The two cited scenarios, obtained from `tylenol_cap_spec`: 80 kg at
15 mg/kg is capped at 1000 mg with a warning; 12 kg at 15 mg/kg yields
180 mg with no warnings. -/
theorem tylenol_cap_spec_witness :
    tylenolRes80.appliedSingleMg = round2 1000 ∧ tylenolRes80.warnings ≠ [] ∧
    tylenolRes12.appliedSingleMg = round2 180 ∧ tylenolRes12.warnings = [] := by
  have h80 := (tylenol_cap_spec tylenolInp80 80 tylenolRes80
    (by norm_num [Tylenol.toKg, tylenolInp80])
    (by norm_num [Tylenol.calculate, tylenolInp80, tylenolRes80, Tylenol.toKg,
      Tylenol.ageMonths, Tylenol.effectiveDoses, Tylenol.roundTo, round2, jsRound,
      jsTrunc, parseNumber])).1
    (by norm_num [tylenolInp80])
  have h12 := (tylenol_cap_spec tylenolInp12 12 tylenolRes12
    (by norm_num [Tylenol.toKg, tylenolInp12])
    (by norm_num [Tylenol.calculate, tylenolInp12, tylenolRes12, Tylenol.toKg,
      Tylenol.ageMonths, Tylenol.effectiveDoses, Tylenol.roundTo, round2, jsRound,
      jsTrunc, parseNumber])).2
    (by norm_num [tylenolInp12])
  have h80a := h80.1
  have h12a := h12.1
  have h12b := h12.2 (by norm_num [Tylenol.ageMonths, tylenolInp12])
    (by norm_num [Tylenol.effectiveDoses, tylenolInp12, jsTrunc, parseNumber])
  norm_num [tylenolInp80] at h80a
  norm_num [tylenolInp12] at h12a
  exact ⟨h80a, h80.2, h12a, h12b⟩

/-- C9: for every value `v`, `roundTo` falls back to default 2-decimal
rounding (`round(v*100)/100`) when the step is missing/non-numeric or
`step ≤ 0`, and returns `round(v/step) * step` when `step > 0`. -/
theorem roundTo_step_spec (v s : ℚ) :
    (s ≤ 0 → Tylenol.roundTo v (some s) = (jsRound (v * 100) : ℚ) / 100) ∧
    Tylenol.roundTo v none = (jsRound (v * 100) : ℚ) / 100 ∧
    (0 < s → Tylenol.roundTo v (some s) = (jsRound (v / s) : ℚ) * s) := by
  refine ⟨fun hs => ?_, rfl, fun hs => ?_⟩
  · simp [Tylenol.roundTo, if_pos hs, round2]
  · simp [Tylenol.roundTo, if_neg (not_le.mpr hs)]

/-- Instances of `roundTo_step_spec` at `v = 7/3` with steps 0, none and 1/2. -/
theorem roundTo_step_spec_witness :
    Tylenol.roundTo (7 / 3) (some 0) = 233 / 100 ∧
    Tylenol.roundTo (7 / 3) none = 233 / 100 ∧
    Tylenol.roundTo (7 / 3) (some (1 / 2)) = 5 / 2 := by
  refine ⟨?_, ?_, ?_⟩
  · rw [(roundTo_step_spec (7 / 3) 0).1 (by norm_num)]
    norm_num [jsRound]
  · rw [(roundTo_step_spec (7 / 3) 0).2.1]
    norm_num [jsRound]
  · rw [(roundTo_step_spec (7 / 3) (1 / 2)).2.2 (by norm_num)]
    norm_num [jsRound]

namespace Pred

/-! ### PrednisolonePediatricCalculator.jsx (first component) -/

/-- `toKg(val, unit)` (source lines 58–65): `null` only on a failed parse or
a falsy value (`!n` catches `0` and `NaN` but not negative numbers). -/
def toKg (val : Option ℚ) (unit : String) : Option ℚ :=
  match val with
  | none => none
  | some n =>
    if n = 0 then none
    else if unit = "kg" then some n
    else if unit = "g" then some (n / 1000)
    else if unit = "lb" then some (n * (45359237 / 100000000))
    else none

/-- `roundTo(val, step)` (source lines 67–71), same shape as the Tylenol one. -/
def roundTo (val : ℚ) (step : Option ℚ) : ℚ :=
  match step with
  | none => round2 val
  | some s => if s ≤ 0 then round2 val else (jsRound (val / s) : ℚ) * s

/-- A formulation entry: syrup (mg per 5 mL) or tablet (mg per tablet). -/
inductive Formulation where
  | syrup (mgPer5ml : ℚ)
  | tablet (mgPerTablet : ℚ)

/-- Toast shown when `toKg` returns `null`. -/
def weightErrorMsg : String := "Enter a valid weight."

/-- Toast shown for a falsy or non-positive mg/kg. -/
def mgkgErrorMsg : String := "Invalid mg/kg value."

/-- Warning for weight below 1 kg. -/
def lowWeightMsg : String :=
  "Very low weight — verify dosing; infant/neonate guidance may differ."

/-- Single-dose cap warning. -/
def capMsg (rawSingleMg maxSingle : ℚ) : String :=
  "Calculated single dose (" ++ toString (jsRound rawSingleMg) ++
    " mg) exceeds preset maximum (" ++ toString maxSingle ++ " mg) and was capped."

/-- The result object built by `calculate`. -/
structure Result where
  weightKg : ℚ
  mgPerKg : ℚ
  rawSingleMg : ℚ
  appliedSingleMg : ℚ
  mlPerDose : Option ℚ
  tabletsPerDose : Option ℤ
  warnings : List String

/-- `calculate` (source lines 73–138): reject a falsy weight or mg/kg, then
compute and cap the single dose, convert to the formulation, attach cap and
low-weight warnings. -/
def calculate (weight : Option ℚ) (weightUnit : String) (mgPerKg : Option ℚ)
    (maxSingle : ℚ) (form : Formulation) (roundingMlStep : Option ℚ) :
    Except (List String) Result :=
  match toKg weight weightUnit with
  | none => Except.error [weightErrorMsg]
  | some wKg =>
    let mgkg := parseNumber mgPerKg
    if mgkg ≤ 0 then Except.error [mgkgErrorMsg]
    else
      let rawSingleMg := wKg * mgkg
      let appliedSingleMg := if 0 < maxSingle then min rawSingleMg maxSingle else rawSingleMg
      let mlPerDose :=
        match form with
        | Formulation.syrup mgPer5ml => some (roundTo (appliedSingleMg / mgPer5ml * 5) roundingMlStep)
        | Formulation.tablet _ => none
      let tabletsPerDose :=
        match form with
        | Formulation.syrup _ => none
        | Formulation.tablet mgPerTablet => some (jsRound (appliedSingleMg / mgPerTablet))
      let warnings :=
        (if maxSingle < rawSingleMg then [capMsg rawSingleMg maxSingle] else []) ++
        (if wKg < 1 then [lowWeightMsg] else [])
      Except.ok
        { weightKg := round2 wKg
          mgPerKg := mgkg
          rawSingleMg := round2 rawSingleMg
          appliedSingleMg := round2 appliedSingleMg
          mlPerDose := mlPerDose
          tabletsPerDose := tabletsPerDose
          warnings := warnings }

end Pred

/-- C8: a negative weight is outside the declared bounds, yet `calculate`
accepts it — `toKg` only rejects falsy values, not negative ones — and
returns a dose result with a negative dose (-5 kg at the asthma preset of
1 mg/kg with a 40 mg cap yields raw and applied dose -5 mg and only the
low-weight warning), instead of failing with `InvalidInputError`. -/
theorem pred_negative_weight_accepted :
    Pred.calculate (some (-5)) "kg" (some 1) 40 (Pred.Formulation.syrup 5) (some (1 / 4)) =
      Except.ok
        { weightKg := -5, mgPerKg := 1, rawSingleMg := -5, appliedSingleMg := -5
          mlPerDose := some (-5), tabletsPerDose := none
          warnings := [Pred.lowWeightMsg] } := by
  norm_num [Pred.calculate, Pred.toKg, Pred.roundTo, round2, jsRound, parseNumber]

namespace Opioid

/-! ### PrednisolonePediatricCalculator.jsx (OpioidConversionCalculator component) -/

/-- A coefficient unit: plain mg, or transdermal patch mcg/hr. -/
inductive OpUnit where
  | mg
  | mcgPerHr
deriving DecidableEq

/-- A conversion-coefficient entry: mg oral morphine equivalent per unit. -/
structure DrugMeta where
  coeff : ℚ
  unit : OpUnit
deriving DecidableEq

/-- `defaultCoefficients` (source lines 726–736). -/
def defaultCoefficients : List (String × DrugMeta) :=
  [("Oral morphine (mg)", ⟨1, OpUnit.mg⟩),
   ("Oral oxycodone (mg)", ⟨3 / 2, OpUnit.mg⟩),
   ("Oral hydromorphone (mg)", ⟨4, OpUnit.mg⟩),
   ("Oral codeine (mg)", ⟨3 / 20, OpUnit.mg⟩),
   ("Oral tramadol (mg)", ⟨1 / 10, OpUnit.mg⟩),
   ("Transdermal fentanyl (mcg/hr)", ⟨12 / 5, OpUnit.mcgPerHr⟩),
   ("Oral methadone (mg)", ⟨4, OpUnit.mg⟩),
   ("Hydrocodone (mg)", ⟨1, OpUnit.mg⟩),
   ("Other (custom)", ⟨0, OpUnit.mg⟩)]

/-- `coefficients[drug] || { coeff: 0, unit: "mg" }`. -/
def lookupCoeff : List (String × DrugMeta) → String → DrugMeta
  | [], _ => ⟨0, OpUnit.mg⟩
  | (k, v) :: rest, drug => if k = drug then v else lookupCoeff rest drug

/-- An opioid regimen entry: drug key, dose and frequency as raw inputs. -/
structure Entry where
  drug : String
  dose : Option ℚ
  freqPerDay : Option ℚ

/-- `entryToOME(entry)` (source lines 759–775): transdermal entries use
`dose * 24 * coeff`; oral entries use `dose * freq * coeff` where the
frequency has the `|| 1` fallback for a falsy parse. -/
def entryToOME (coeffs : List (String × DrugMeta)) (e : Entry) : ℚ :=
  let drugMeta := lookupCoeff coeffs e.drug
  let dose := parseNumber e.dose
  let freq := if parseNumber e.freqPerDay = 0 then 1 else parseNumber e.freqPerDay
  match drugMeta.unit with
  | OpUnit.mcgPerHr => dose * 24 * drugMeta.coeff
  | OpUnit.mg => dose * freq * drugMeta.coeff

/-- `calculateTotalOME()`: `entries.reduce((s, e) => s + entryToOME(e), 0)`. -/
def calculateTotalOME (coeffs : List (String × DrugMeta)) (entries : List Entry) : ℚ :=
  entries.foldl (fun s e => s + entryToOME coeffs e) 0

/-- A JavaScript double as produced by the conversion arithmetic: a finite
rational, a signed infinity, or NaN. -/
inductive JSNum where
  | fin (q : ℚ)
  | posInf
  | negInf
  | nan
deriving DecidableEq

/-- JavaScript division of finite doubles: division by zero yields a signed
infinity (or NaN for 0/0). -/
def jsDiv (a b : ℚ) : JSNum :=
  if b = 0 then
    if 0 < a then JSNum.posInf else if a < 0 then JSNum.negInf else JSNum.nan
  else JSNum.fin (a / b)

/-- JavaScript multiplication of a value by a finite constant. -/
def jsMulConst (x : JSNum) (c : ℚ) : JSNum :=
  match x with
  | JSNum.fin q => JSNum.fin (q * c)
  | JSNum.posInf => if 0 < c then JSNum.posInf else if c < 0 then JSNum.negInf else JSNum.nan
  | JSNum.negInf => if 0 < c then JSNum.negInf else if c < 0 then JSNum.posInf else JSNum.nan
  | JSNum.nan => JSNum.nan

/-- JavaScript division of a value by a finite constant. -/
def jsDivConst (x : JSNum) (c : ℚ) : JSNum :=
  match x with
  | JSNum.fin q => jsDiv q c
  | JSNum.posInf => if c < 0 then JSNum.negInf else JSNum.posInf
  | JSNum.negInf => if c < 0 then JSNum.posInf else JSNum.negInf
  | JSNum.nan => JSNum.nan

/-- `Math.round` extended to infinities and NaN (which it maps to themselves). -/
def jsRoundNum : JSNum → JSNum
  | JSNum.fin q => JSNum.fin (jsRound q : ℚ)
  | x => x

/-- `Math.round(v * 100) / 100` on a JavaScript double. -/
def jsRound2Num : JSNum → JSNum
  | JSNum.fin q => JSNum.fin (round2 q)
  | x => x

/-- The `{ value, unit }` object returned by `convertOMEtoTarget`. -/
structure TargetDose where
  value : JSNum
  unit : String
deriving DecidableEq

/-- `convertOMEtoTarget(totalOME, target)` (source lines 783–795): a patch
target divides by `24 * coeff` (mcg/hr), any other target divides by
`coeff` (mg/day) — with no guard against a zero coefficient. -/
def convertOMEtoTarget (coeffs : List (String × DrugMeta)) (totalOME : ℚ)
    (target : String) : TargetDose :=
  let meta := lookupCoeff coeffs target
  match meta.unit with
  | OpUnit.mcgPerHr => ⟨jsDiv totalOME (24 * meta.coeff), "mcg/hr"⟩
  | OpUnit.mg => ⟨jsDiv totalOME meta.coeff, "mg/day"⟩

/-- `practicalRound(value, unit)` (source lines 798–805): round to the
mcg-step for patches, the mg-step otherwise, each with its `|| default`. -/
def practicalRound (roundingMg roundingMcg : ℚ) (value : JSNum) (unit : String) : JSNum :=
  if unit = "mcg/hr" then
    jsMulConst (jsRoundNum (jsDivConst value (if roundingMcg = 0 then 25 else roundingMcg)))
      (if roundingMcg = 0 then 25 else roundingMcg)
  else
    jsMulConst (jsRoundNum (jsDivConst value (if roundingMg = 0 then 5 else roundingMg)))
      (if roundingMg = 0 then 5 else roundingMg)

/-- Toast shown when the summed OME is falsy or non-positive. -/
def omeZeroErrorMsg : String := "Total OME is zero — add valid opioid entries."

/-- The result object built by `calculate`. -/
structure Result where
  totalOME : ℚ
  rawTargetValue : JSNum
  rawTargetUnit : String
  adjustedValue : JSNum
  practical : JSNum
  incompleteCrossTolerancePercent : ℚ

/-- `calculate()` (source lines 808–841): sum the OME, reject a non-positive
total, convert to the target, apply the incomplete-cross-tolerance factor
`(100 - pct) / 100`, then practical rounding. -/
def calculate (coeffs : List (String × DrugMeta)) (entries : List Entry)
    (targetOpioid : String) (pct : Option ℚ) (roundingMg roundingMcg : ℚ) :
    Except (List String) Result :=
  let totalOME := calculateTotalOME coeffs entries
  if totalOME ≤ 0 then Except.error [omeZeroErrorMsg]
  else
    let rawTarget := convertOMEtoTarget coeffs totalOME targetOpioid
    let reductionFactor := (100 - parseNumber pct) / 100
    let adjustedValue := jsMulConst rawTarget.value reductionFactor
    let practical := practicalRound roundingMg roundingMcg adjustedValue rawTarget.unit
    Except.ok
      { totalOME := round2 totalOME
        rawTargetValue := rawTarget.value
        rawTargetUnit := rawTarget.unit
        adjustedValue := jsRound2Num adjustedValue
        practical := practical
        incompleteCrossTolerancePercent := parseNumber pct }

/-- The per-entry OME contribution in the form the (amended) spec states it:
`dose × 24 × coeff` for transdermal entries, otherwise
`dose × frequency × coeff` with a falsy frequency replaced by 1. -/
def specOmeContribution (coeffs : List (String × DrugMeta)) (e : Entry) : ℚ :=
  let m := lookupCoeff coeffs e.drug
  if m.unit = OpUnit.mcgPerHr then parseNumber e.dose * 24 * m.coeff
  else
    parseNumber e.dose *
      (if parseNumber e.freqPerDay = 0 then 1 else parseNumber e.freqPerDay) * m.coeff

/-- The inverse target-conversion formula in the form the spec states it:
division by `24 × coeff` for a transdermal target, else by `coeff`. -/
def specInverseTarget (coeffs : List (String × DrugMeta)) (totalOME : ℚ)
    (target : String) : JSNum :=
  let m := lookupCoeff coeffs target
  if m.unit = OpUnit.mcgPerHr then jsDiv totalOME (24 * m.coeff)
  else jsDiv totalOME m.coeff

end Opioid

/-- The source `entryToOME` agrees pointwise with the spec-side contribution formula. -/
theorem entryToOME_eq_specContribution (coeffs : List (String × Opioid.DrugMeta))
    (e : Opioid.Entry) :
    Opioid.entryToOME coeffs e = Opioid.specOmeContribution coeffs e := by
  unfold Opioid.entryToOME Opioid.specOmeContribution
  cases h : (Opioid.lookupCoeff coeffs e.drug).unit <;> simp [h]

/-- The source `convertOMEtoTarget` value agrees with the spec-side inverse formula. -/
theorem convert_value_eq_specInverse (coeffs : List (String × Opioid.DrugMeta))
    (t : ℚ) (target : String) :
    (Opioid.convertOMEtoTarget coeffs t target).value =
      Opioid.specInverseTarget coeffs t target := by
  unfold Opioid.convertOMEtoTarget Opioid.specInverseTarget
  cases h : (Opioid.lookupCoeff coeffs target).unit <;> simp [h]

/-- `reduce((s, e) => s + f e, a)` is `a` plus the sum of the mapped list. -/
theorem foldl_add_eq_sum (f : Opioid.Entry → ℚ) (l : List Opioid.Entry) (a : ℚ) :
    l.foldl (fun s e => s + f e) a = a + (l.map f).sum := by
  induction l generalizing a with
  | nil => simp
  | cons x xs ih => simp [ih]; ring

/-- C5 (amended): every successful conversion result is built from the
claimed formulas — the total OME is the sum over entries of
`dose × 24 × coeff` (transdermal) or `dose × frequency × coeff` with a falsy
frequency replaced by 1 (oral); the raw target dose is the total divided by
`24 × coeff` for a transdermal target and by `coeff` otherwise; and the
practical dose is the raw target value multiplied by `(100 - pct) / 100`
before the final practical rounding. -/
theorem opioid_pipeline_formula (entries : List Opioid.Entry) (target : String)
    (pct : Option ℚ) (rMg rMcg : ℚ) (res : Opioid.Result)
    (h : Opioid.calculate Opioid.defaultCoefficients entries target pct rMg rMcg =
      Except.ok res) :
    res.totalOME =
      round2 ((entries.map (Opioid.specOmeContribution Opioid.defaultCoefficients)).sum) ∧
    res.rawTargetValue = Opioid.specInverseTarget Opioid.defaultCoefficients
      ((entries.map (Opioid.specOmeContribution Opioid.defaultCoefficients)).sum) target ∧
    res.practical = Opioid.practicalRound rMg rMcg
      (Opioid.jsMulConst res.rawTargetValue ((100 - parseNumber pct) / 100))
      res.rawTargetUnit := by
  have hts : Opioid.calculateTotalOME Opioid.defaultCoefficients entries =
      (entries.map (Opioid.specOmeContribution Opioid.defaultCoefficients)).sum := by
    unfold Opioid.calculateTotalOME
    rw [foldl_add_eq_sum (Opioid.entryToOME Opioid.defaultCoefficients) entries 0]
    rw [funext (entryToOME_eq_specContribution Opioid.defaultCoefficients)]
    ring
  unfold Opioid.calculate at h
  by_cases hle : Opioid.calculateTotalOME Opioid.defaultCoefficients entries ≤ 0
  · rw [if_pos hle] at h
    exact absurd h (by simp)
  · rw [if_neg hle] at h
    simp only [Except.ok.injEq] at h
    subst h
    refine ⟨by rw [hts], ?_, rfl⟩
    rw [← hts]
    exact convert_value_eq_specInverse Opioid.defaultCoefficients
      (Opioid.calculateTotalOME Opioid.defaultCoefficients entries) target

/-- A one-entry regimen: oral morphine 30 mg four times daily. -/
def opEntries1 : List Opioid.Entry := [⟨"Oral morphine (mg)", some 30, some 4⟩]

/-- Expected conversion of `opEntries1` to oxycodone at 25 % cross-tolerance
reduction: total OME 120, raw 80 mg/day, adjusted and practical 60 mg/day. -/
def opRes1 : Opioid.Result :=
  { totalOME := 120, rawTargetValue := Opioid.JSNum.fin 80, rawTargetUnit := "mg/day"
    adjustedValue := Opioid.JSNum.fin 60, practical := Opioid.JSNum.fin 60
    incompleteCrossTolerancePercent := 25 }

/-- C5 counterexample: an oral morphine entry of 30 mg with frequency 0
contributes 30 mg OME (the `|| 1` fallback replaces the falsy frequency by
1), not the claimed `dose × frequency × coefficient = 30 × 0 × 1 = 0`. -/
theorem opioid_freq_zero_contribution_cex :
    Opioid.entryToOME Opioid.defaultCoefficients ⟨"Oral morphine (mg)", some 30, some 0⟩ = 30 ∧
    (30 : ℚ) ≠ 30 * 0 * 1 := by
  have hmor : Opioid.lookupCoeff Opioid.defaultCoefficients "Oral morphine (mg)" =
      ⟨1, Opioid.OpUnit.mg⟩ := rfl
  constructor
  · norm_num [Opioid.entryToOME, hmor, parseNumber]
  · norm_num

/-- Instance of `opioid_pipeline_formula` on `opEntries1` → oxycodone. -/
theorem opioid_pipeline_formula_witness :
    opRes1.rawTargetValue = Opioid.specInverseTarget Opioid.defaultCoefficients
      ((opEntries1.map (Opioid.specOmeContribution Opioid.defaultCoefficients)).sum)
      "Oral oxycodone (mg)" ∧
    opRes1.practical = Opioid.practicalRound 5 25
      (Opioid.jsMulConst opRes1.rawTargetValue ((100 - parseNumber (some 25)) / 100))
      opRes1.rawTargetUnit := by
  have hmor : Opioid.lookupCoeff Opioid.defaultCoefficients "Oral morphine (mg)" =
      ⟨1, Opioid.OpUnit.mg⟩ := rfl
  have hoxy : Opioid.lookupCoeff Opioid.defaultCoefficients "Oral oxycodone (mg)" =
      ⟨3 / 2, Opioid.OpUnit.mg⟩ := rfl
  have hstr : ("mg/day" = "mcg/hr") = False := by simp
  have hcalc : Opioid.calculate Opioid.defaultCoefficients opEntries1 "Oral oxycodone (mg)"
      (some 25) 5 25 = Except.ok opRes1 := by
    norm_num [Opioid.calculate, Opioid.calculateTotalOME, Opioid.entryToOME, opEntries1,
      hmor, hoxy, hstr, Opioid.convertOMEtoTarget, Opioid.jsDiv, Opioid.jsMulConst,
      Opioid.practicalRound, Opioid.jsDivConst, Opioid.jsRoundNum, Opioid.jsRound2Num,
      round2, jsRound, parseNumber, opRes1]
  have h := opioid_pipeline_formula opEntries1 "Oral oxycodone (mg)" (some 25) 5 25 opRes1 hcalc
  exact ⟨h.2.1, h.2.2⟩

/-- C6 counterexample: for the registered, positive-coefficient entry
"oral morphine 30 mg × 4/day", converting its OME back to oral morphine
returns 120 mg/day — the daily dose — not the original dose 30 mg. -/
theorem opioid_roundtrip_cex :
    0 < (Opioid.lookupCoeff Opioid.defaultCoefficients "Oral morphine (mg)").coeff ∧
    (Opioid.convertOMEtoTarget Opioid.defaultCoefficients
        (Opioid.entryToOME Opioid.defaultCoefficients ⟨"Oral morphine (mg)", some 30, some 4⟩)
        "Oral morphine (mg)").value = Opioid.JSNum.fin 120 ∧
    Opioid.JSNum.fin (120 : ℚ) ≠ Opioid.JSNum.fin (30 : ℚ) := by
  have hmor : Opioid.lookupCoeff Opioid.defaultCoefficients "Oral morphine (mg)" =
      ⟨1, Opioid.OpUnit.mg⟩ := rfl
  refine ⟨by rw [hmor]; norm_num, ?_, ?_⟩
  · norm_num [Opioid.convertOMEtoTarget, Opioid.entryToOME, hmor, Opioid.jsDiv, parseNumber]
  · simp only [ne_eq, Opioid.JSNum.fin.injEq]
    norm_num

/-- C6 (amended): for every single entry whose drug has a positive registered
coefficient, converting the entry's OME back to the original agent (ignoring
cross-tolerance reduction) returns the entry's total daily dose exactly:
`dose × effective frequency` for an oral entry — which equals the original
dose only when the effective frequency is 1 — and exactly `dose` for a
transdermal entry. -/
theorem opioid_roundtrip_daily_dose (e : Opioid.Entry)
    (hc : 0 < (Opioid.lookupCoeff Opioid.defaultCoefficients e.drug).coeff) :
    (Opioid.convertOMEtoTarget Opioid.defaultCoefficients
        (Opioid.entryToOME Opioid.defaultCoefficients e) e.drug).value =
      Opioid.JSNum.fin (parseNumber e.dose *
        (if (Opioid.lookupCoeff Opioid.defaultCoefficients e.drug).unit = Opioid.OpUnit.mcgPerHr
          then 1
          else if parseNumber e.freqPerDay = 0 then 1 else parseNumber e.freqPerDay)) := by
  have hne : (Opioid.lookupCoeff Opioid.defaultCoefficients e.drug).coeff ≠ 0 := ne_of_gt hc
  unfold Opioid.convertOMEtoTarget Opioid.entryToOME
  cases h : (Opioid.lookupCoeff Opioid.defaultCoefficients e.drug).unit with
  | mcgPerHr =>
    have h24 : (24 : ℚ) * (Opioid.lookupCoeff Opioid.defaultCoefficients e.drug).coeff ≠ 0 :=
      mul_ne_zero (by norm_num) hne
    simp [h, Opioid.jsDiv, h24]
    rw [div_eq_iff h24]
    ring
  | mg =>
    simp [h, Opioid.jsDiv, hne]
    rw [div_eq_iff hne]
    split_ifs <;> ring

/-- Instances of `opioid_roundtrip_daily_dose`: oral morphine 30 mg once
daily round-trips to 30, and a fentanyl 25 mcg/hr patch round-trips to 25. -/
theorem opioid_roundtrip_daily_dose_witness :
    (Opioid.convertOMEtoTarget Opioid.defaultCoefficients
        (Opioid.entryToOME Opioid.defaultCoefficients ⟨"Oral morphine (mg)", some 30, some 1⟩)
        "Oral morphine (mg)").value = Opioid.JSNum.fin 30 ∧
    (Opioid.convertOMEtoTarget Opioid.defaultCoefficients
        (Opioid.entryToOME Opioid.defaultCoefficients
          ⟨"Transdermal fentanyl (mcg/hr)", some 25, some 1⟩)
        "Transdermal fentanyl (mcg/hr)").value = Opioid.JSNum.fin 25 := by
  have hmor : Opioid.lookupCoeff Opioid.defaultCoefficients "Oral morphine (mg)" =
      ⟨1, Opioid.OpUnit.mg⟩ := rfl
  have hfen : Opioid.lookupCoeff Opioid.defaultCoefficients "Transdermal fentanyl (mcg/hr)" =
      ⟨12 / 5, Opioid.OpUnit.mcgPerHr⟩ := rfl
  constructor
  · have h := opioid_roundtrip_daily_dose ⟨"Oral morphine (mg)", some 30, some 1⟩
      (by rw [hmor]; norm_num)
    rw [h]
    norm_num [hmor, parseNumber]
  · have h := opioid_roundtrip_daily_dose ⟨"Transdermal fentanyl (mcg/hr)", some 25, some 1⟩
      (by rw [hfen]; norm_num)
    rw [h]
    norm_num [hfen, parseNumber]

/-- C10: `convertOMEtoTarget` divides by the target coefficient without a
zero guard, so for every positive total OME the target "Other (custom)"
(registered coefficient 0) yields `Infinity` mg/day. -/
theorem opioid_zero_coefficient_infinity (ome : ℚ) (h : 0 < ome) :
    Opioid.convertOMEtoTarget Opioid.defaultCoefficients ome "Other (custom)" =
      ⟨Opioid.JSNum.posInf, "mg/day"⟩ := by
  have hoth : Opioid.lookupCoeff Opioid.defaultCoefficients "Other (custom)" =
      ⟨0, Opioid.OpUnit.mg⟩ := rfl
  unfold Opioid.convertOMEtoTarget
  simp [hoth, Opioid.jsDiv, h]

/-- Instance of `opioid_zero_coefficient_infinity` at total OME 120. -/
theorem opioid_zero_coefficient_infinity_witness :
    Opioid.convertOMEtoTarget Opioid.defaultCoefficients 120 "Other (custom)" =
      ⟨Opioid.JSNum.posInf, "mg/day"⟩ :=
  opioid_zero_coefficient_infinity 120 (by norm_num)

end MedCalc
